import Mathlib

/-!
Shallow embedding of the Taymagotchi virtual-pet core (pet.py, settings.py,
and the drag-handling portion of app.py), with theorems checking the design
specification's claims against it.

Python floats are modelled as exact rationals (ℚ), Python ints as ℤ, and the
wall clock (`time.time()`) as an explicit `now : ℚ` parameter.
-/

namespace Taymagotchi

/-- `PetState` from pet.py lines 8-16: the pet's core stats. -/
structure PetState where
  hunger : ℚ
  thirst : ℚ
  happiness : ℚ
  level : ℤ
  last_level_update : ℚ
  is_neglected : Bool
  deriving Repr, DecidableEq

/-- The dataclass defaults of `PetState` (pet.py lines 11-16). -/
def defaultPetState : PetState :=
  { hunger := 0, thirst := 0, happiness := 100, level := 1,
    last_level_update := 0, is_neglected := false }

/-- Configuration constants from settings.py. -/
def STAT_DECAY_PER_MIN : ℚ := 1 / 60

def FEED_AMOUNT : ℚ := 25

def PLAY_AMOUNT : ℚ := 25

/-- The three stat-decay updates at the start of `Pet.tick` (pet.py lines 62-67). -/
def decayStats (s : PetState) (minutes_elapsed decay_rate : ℚ) : PetState :=
  { s with
    hunger := min 100 (s.hunger + decay_rate * minutes_elapsed)
    thirst := min 100 (s.thirst + decay_rate * minutes_elapsed)
    happiness := max 0 (s.happiness - decay_rate * minutes_elapsed) }

/-- Neglect recomputation from the freshly updated stats (pet.py lines 69-75):
`food_bar = max(0, 100 - hunger)`, `water_bar = max(0, 100 - thirst)`,
`heart_bar = happiness`, and the pet is neglected when all three are `≤ 0`. -/
def neglectFlag (s : PetState) : Bool :=
  decide (max (0:ℚ) (100 - s.hunger) ≤ 0 ∧ max (0:ℚ) (100 - s.thirst) ≤ 0 ∧
    s.happiness ≤ 0)

/-- The neglect-recovery timer reset (pet.py lines 77-79): if the pet was
neglected and no longer is, `last_level_update` becomes the current time. -/
def recoveredLLU (was_neglected is_neglected : Bool) (now old : ℚ) : ℚ :=
  if was_neglected && !is_neglected then now else old

/-- `Pet.tick` up to and including the recovery reset (pet.py lines 62-79). -/
def tickPre (s : PetState) (minutes_elapsed decay_rate now : ℚ) : PetState :=
  let s1 := decayStats s minutes_elapsed decay_rate
  let flag := neglectFlag s1
  { s1 with is_neglected := flag,
            last_level_update :=
              recoveredLLU s.is_neglected flag now s1.last_level_update }

/-- `Pet.tick` (pet.py lines 56-96).  The day-boundary branch uses Python's
`int(x)` on `x = time_since / 86400 ≥ 1 > 0`, where truncation toward zero
coincides with the floor. -/
def tick (s : PetState) (minutes_elapsed decay_rate now : ℚ) : PetState :=
  let s3 := tickPre s minutes_elapsed decay_rate now
  let time_since := now - s3.last_level_update
  if 86400 ≤ time_since then
    let days_elapsed : ℤ := ⌊time_since / 86400⌋
    { s3 with
      level := if s3.is_neglected then max 1 (s3.level - days_elapsed)
               else s3.level + days_elapsed,
      last_level_update := now }
  else s3

/-- `Pet.feed` (pet.py lines 101-104). -/
def feed (s : PetState) (amount : ℚ) : PetState :=
  { s with hunger := max 0 (s.hunger - amount) }

/-- `Pet.drink` (pet.py lines 106-109). -/
def drink (s : PetState) (amount : ℚ) : PetState :=
  { s with thirst := max 0 (s.thirst - amount) }

/-- `Pet.play` (pet.py lines 111-114). -/
def play (s : PetState) (amount : ℚ) : PetState :=
  { s with happiness := min 100 (s.happiness + amount) }

/-- `Pet.reset` (pet.py lines 116-120). -/
def reset (now : ℚ) : PetState :=
  { defaultPetState with last_level_update := now }

/-- The pet's moods, pet.py line 125. -/
inductive Mood where
  | hungry
  | thirsty
  | sad
  | happy
  deriving Repr, DecidableEq

/-- `Pet.mood` (pet.py lines 125-157).  Note the bars here are not clamped at
0, unlike the ones in `tick`. -/
def mood (s : PetState) : Mood :=
  let food_bar : ℚ := 100 - s.hunger
  let water_bar : ℚ := 100 - s.thirst
  let heart_bar : ℚ := s.happiness
  if 70 < food_bar ∧ 70 < water_bar ∧ 70 < heart_bar then .happy
  else if food_bar < 30 then .hungry
  else if water_bar < 30 then .thirsty
  else if heart_bar < 30 then .sad
  else
    let min_stat := min food_bar (min water_bar heart_bar)
    if min_stat = food_bar then .hungry
    else if min_stat = water_bar then .thirsty
    else .sad

/-- The three raw stats are within their documented [0, 100] range. -/
def statsInRange (s : PetState) : Prop :=
  0 ≤ s.hunger ∧ s.hunger ≤ 100 ∧ 0 ≤ s.thirst ∧ s.thirst ≤ 100 ∧
    0 ≤ s.happiness ∧ s.happiness ≤ 100

instance (s : PetState) : Decidable (statsInRange s) := by
  unfold statsInRange; infer_instance

/-! ### Persistence (pet.py lines 34-51, via `json` and `dataclasses.asdict`) -/

/-- A JSON scalar as found in the save file. -/
inductive JValue where
  | num (q : ℚ)
  | int (n : ℤ)
  | bool (b : Bool)
  | str (t : String)
  deriving Repr, DecidableEq

/-- The field names of the `PetState` dataclass, in declaration order. -/
def fieldNames : List String :=
  ["hunger", "thirst", "happiness", "level", "last_level_update", "is_neglected"]

/-- `Pet.save` (pet.py lines 45-51): `json.dump(asdict(self.state), f)` writes
the fields of `PetState` as a JSON object, here an association list. -/
def saveState (s : PetState) : List (String × JValue) :=
  [("hunger", .num s.hunger), ("thirst", .num s.thirst),
   ("happiness", .num s.happiness), ("level", .int s.level),
   ("last_level_update", .num s.last_level_update),
   ("is_neglected", .bool s.is_neglected)]

/-- First value stored under key `k`, if any (JSON objects have unique keys). -/
def lookupField (data : List (String × JValue)) (k : String) : Option JValue :=
  (data.find? (fun p => p.1 = k)).map (fun p => p.2)

/-- Decode a float field, falling back to the dataclass default when absent. -/
def decodeNum (v : Option JValue) (dflt : ℚ) : Option ℚ :=
  match v with
  | none => some dflt
  | some (.num q) => some q
  | some _ => none

/-- Decode an int field, falling back to the dataclass default when absent. -/
def decodeInt (v : Option JValue) (dflt : ℤ) : Option ℤ :=
  match v with
  | none => some dflt
  | some (.int n) => some n
  | some _ => none

/-- Decode a bool field, falling back to the dataclass default when absent. -/
def decodeBool (v : Option JValue) (dflt : Bool) : Option Bool :=
  match v with
  | none => some dflt
  | some (.bool b) => some b
  | some _ => none

/-- `PetState(**data)` (pet.py line 40).  The construction raises `TypeError`
(modelled as `none`) exactly when `data` holds a key that is not a `PetState`
field; absent fields take the dataclass defaults.  The dataclass performs no
runtime type validation, so this model's domain is the well-typed snapshots
(which include everything `Pet.save` writes); a wrongly-typed value leaves the
typed state space and is also mapped to `none`. -/
def loadSnapshot (data : List (String × JValue)) : Option PetState :=
  if data.all (fun p => fieldNames.contains p.1) then
    match decodeNum (lookupField data "hunger") 0,
          decodeNum (lookupField data "thirst") 0,
          decodeNum (lookupField data "happiness") 100,
          decodeInt (lookupField data "level") 1,
          decodeNum (lookupField data "last_level_update") 0,
          decodeBool (lookupField data "is_neglected") false with
    | some hu, some th, some ha, some lv, some llu, some ne =>
        some { hunger := hu, thirst := th, happiness := ha, level := lv,
               last_level_update := llu, is_neglected := ne }
    | _, _, _, _, _, _ => none
  else none

/-- The possible outcomes of reading the save file from disk. -/
inductive FileRead where
  | missing
  | unparseable
  | parsed (data : List (String × JValue))
  deriving Repr, DecidableEq

/-- `Pet.load` (pet.py lines 34-43): a missing file leaves the current state;
a parse or construction failure is caught, reported (the `Bool` records
whether the failure message was printed), and also leaves the current state.
The function is total: no outcome propagates an exception. -/
def petLoad (cur : PetState) : FileRead → PetState × Bool
  | .missing => (cur, false)
  | .unparseable => (cur, true)
  | .parsed data =>
      match loadSnapshot data with
      | some s => (s, false)
      | none => (cur, true)

/-- `Pet.__init__` (pet.py lines 21-29): start from the dataclass defaults,
load the save file, then replace a zero `last_level_update` with the current
wall-clock time. -/
def petInit (fr : FileRead) (now : ℚ) : PetState :=
  let s := (petLoad defaultPetState fr).1
  if s.last_level_update = 0 then { s with last_level_update := now } else s

/-! ### Drag-and-drop interaction (app.py lines 36-42, 94-150, 152-170) -/

/-- An axis-aligned pygame rect (integer pixel coordinates). -/
structure Rect where
  x : ℤ
  y : ℤ
  w : ℤ
  h : ℤ
  deriving Repr, DecidableEq

/-- `pygame.Rect.collidepoint`: inside the rect or on its top/left edges;
points on the right/bottom edges are outside. -/
def Rect.collidepoint (r : Rect) (p : ℤ × ℤ) : Bool :=
  decide (r.x ≤ p.1 ∧ p.1 < r.x + r.w ∧ r.y ≤ p.2 ∧ p.2 < r.y + r.h)

/-- Python truthiness of an optional pygame rect: `None` and zero-area rects
are falsy. -/
def rectTruthy : Option Rect → Bool
  | none => false
  | some r => !(r.w == 0) && !(r.h == 0)

/-- `collidepoint` through an optional rect (`None` collides with nothing). -/
def optCollide : Option Rect → ℤ × ℤ → Bool
  | none, _ => false
  | some r, p => r.collidepoint p

/-- The pygame mouse events consumed by the drag logic of
`App.handle_events` (app.py lines 102-132). -/
inductive AppEvent where
  | mouseButtonDown (pos : ℤ × ℤ)
  | mouseMotion (pos : ℤ × ℤ)
  | mouseButtonUp (pos : ℤ × ℤ)
  deriving Repr, DecidableEq

/-- The part of `App` state the drag logic touches: the pet, the drag
lifecycle fields (app.py lines 36-37), and the number of times the
floating-hearts feedback has been triggered (`spawn_floating_hearts` calls). -/
structure AppCore where
  pet : PetState
  dragged_emoji : Option String
  drag_pos : Option (ℤ × ℤ)
  feedback_count : ℕ
  deriving Repr, DecidableEq

/-- `App.spawn_floating_hearts` (app.py lines 152-170): a no-op without a
truthy pet rect, otherwise one feedback trigger. -/
def spawnHearts (pet_rect : Option Rect) (a : AppCore) : AppCore :=
  if rectTruthy pet_rect then { a with feedback_count := a.feedback_count + 1 }
  else a

/-- The drop branch of `App.handle_events` (app.py lines 119-128): dispatch on
the dragged emoji; `feed` and `drink` both use `settings.FEED_AMOUNT`. -/
def performDrop (pet_rect : Option Rect) (feed_amount play_amount : ℚ)
    (a : AppCore) (emoji : String) : AppCore :=
  if emoji = "feed" then spawnHearts pet_rect { a with pet := feed a.pet feed_amount }
  else if emoji = "drink" then spawnHearts pet_rect { a with pet := drink a.pet feed_amount }
  else if emoji = "play" then spawnHearts pet_rect { a with pet := play a.pet play_amount }
  else a

/-- One mouse event through the drag logic of `App.handle_events`
(app.py lines 102-132).  `emoji_rects` is the insertion-ordered dict of action
hit regions, `pet_rect` the pet's hit region.  Note the pointer-up branch
tests the *stored* `drag_pos`, not the up event's own position. -/
def handleEvent (emoji_rects : List (String × Rect)) (pet_rect : Option Rect)
    (feed_amount play_amount : ℚ) (a : AppCore) : AppEvent → AppCore
  | .mouseButtonDown pos =>
      match emoji_rects.find? (fun ar => ar.2.collidepoint pos) with
      | some ar => { a with dragged_emoji := some ar.1, drag_pos := some pos }
      | none => a
  | .mouseMotion pos =>
      match a.dragged_emoji with
      | some _ => { a with drag_pos := some pos }
      | none => a
  | .mouseButtonUp _ =>
      let a' :=
        match a.dragged_emoji, a.drag_pos with
        | some emoji, some dp =>
            if rectTruthy pet_rect && optCollide pet_rect dp then
              performDrop pet_rect feed_amount play_amount a emoji
            else a
        | _, _ => a
      { a' with dragged_emoji := none, drag_pos := none }

/-- A sequence of mouse events through the drag logic, in order. -/
def handleEvents (emoji_rects : List (String × Rect)) (pet_rect : Option Rect)
    (feed_amount play_amount : ℚ) (a : AppCore) (events : List AppEvent) :
    AppCore :=
  events.foldl (handleEvent emoji_rects pet_rect feed_amount play_amount) a

/-- The Mood Resolver exactly as the specification words it (spec.md section
4.3 and claim C6): happy when all three bars exceed 70; otherwise the first
critical bar below 30 in the order food, then water, then heart; otherwise the
mood of the minimum bar with tie-break order food over water over heart. -/
def moodSpec (s : PetState) : Mood :=
  let food_bar : ℚ := 100 - s.hunger
  let water_bar : ℚ := 100 - s.thirst
  let heart_bar : ℚ := s.happiness
  if 70 < food_bar ∧ 70 < water_bar ∧ 70 < heart_bar then .happy
  else if food_bar < 30 then .hungry
  else if water_bar < 30 then .thirsty
  else if heart_bar < 30 then .sad
  else if food_bar ≤ water_bar ∧ food_bar ≤ heart_bar then .hungry
  else if water_bar ≤ heart_bar then .thirsty
  else .sad

/-!
### Helper lemmas
-/

lemma tick_hunger (s : PetState) (m r now : ℚ) :
    (tick s m r now).hunger = min 100 (s.hunger + r * m) := by
  unfold tick tickPre decayStats
  dsimp only
  split <;> rfl

lemma tick_thirst (s : PetState) (m r now : ℚ) :
    (tick s m r now).thirst = min 100 (s.thirst + r * m) := by
  unfold tick tickPre decayStats
  dsimp only
  split <;> rfl

lemma tick_happiness (s : PetState) (m r now : ℚ) :
    (tick s m r now).happiness = max 0 (s.happiness - r * m) := by
  unfold tick tickPre decayStats
  dsimp only
  split <;> rfl

lemma tick_is_neglected (s : PetState) (m r now : ℚ) :
    (tick s m r now).is_neglected = neglectFlag (decayStats s m r) := by
  unfold tick tickPre
  dsimp only
  split <;> rfl

lemma max_sub_nonpos_iff (x : ℚ) : max (0:ℚ) (100 - x) ≤ 0 ↔ 100 ≤ x := by
  rw [max_le_iff]
  constructor
  · rintro ⟨-, h⟩
    linarith
  · intro h
    exact ⟨le_refl 0, by linarith⟩

lemma tick_llu_of_recovery (s : PetState) (m r now : ℚ)
    (hneg : s.is_neglected = true)
    (hflag : neglectFlag (decayStats s m r) = false) :
    (tick s m r now).is_neglected = false ∧
      (tick s m r now).last_level_update = now := by
  have hpre : tickPre s m r now =
      { decayStats s m r with is_neglected := false,
                              last_level_update := now } := by
    unfold tickPre
    dsimp only
    rw [hflag, hneg]
    rfl
  have hllu : (tickPre s m r now).last_level_update = now := by rw [hpre]
  have hfl2 : (tickPre s m r now).is_neglected = false := by rw [hpre]
  unfold tick
  dsimp only
  rw [hllu]
  rw [if_neg (by norm_num : ¬ (86400:ℚ) ≤ now - now)]
  exact ⟨hfl2, hllu⟩

lemma neglectFlag_false_of_hunger (s : PetState) (m r : ℚ)
    (h : s.hunger + r * m < 100) :
    neglectFlag (decayStats s m r) = false := by
  unfold neglectFlag decayStats
  dsimp only
  rw [decide_eq_false_iff_not]
  rintro ⟨h1, -, -⟩
  rw [max_sub_nonpos_iff] at h1
  have h2 := min_le_right (100:ℚ) (s.hunger + r * m)
  linarith

lemma neglectFlag_false_of_thirst (s : PetState) (m r : ℚ)
    (h : s.thirst + r * m < 100) :
    neglectFlag (decayStats s m r) = false := by
  unfold neglectFlag decayStats
  dsimp only
  rw [decide_eq_false_iff_not]
  rintro ⟨-, h1, -⟩
  rw [max_sub_nonpos_iff] at h1
  have h2 := min_le_right (100:ℚ) (s.thirst + r * m)
  linarith

lemma neglectFlag_false_of_happiness (s : PetState) (m r : ℚ)
    (h : 0 < s.happiness - r * m) :
    neglectFlag (decayStats s m r) = false := by
  unfold neglectFlag decayStats
  dsimp only
  rw [decide_eq_false_iff_not]
  rintro ⟨-, -, h1⟩
  have h2 := le_max_right (0:ℚ) (s.happiness - r * m)
  linarith

/-!
### The claims
-/

/-- C2: whenever the (post-recovery-reset) level timer lags `now` by at least
86400 seconds, `tick` adjusts the level by `days_elapsed` — down to a floor of
1 when neglected, up otherwise — and stamps `last_level_update := now`.  In
particular a healthy pet with the timer exactly 172800 seconds in the past
gains exactly 2 levels in one tick, and a neglected level-1 pet with one
elapsed day stays at level 1. -/
theorem tick_day_boundary_leveling :
    (∀ (s : PetState) (m r now : ℚ),
        86400 ≤ now - (tickPre s m r now).last_level_update →
        (tick s m r now).level =
          (if (tickPre s m r now).is_neglected then
             max 1 (s.level -
               ⌊(now - (tickPre s m r now).last_level_update) / 86400⌋)
           else s.level +
             ⌊(now - (tickPre s m r now).last_level_update) / 86400⌋) ∧
        (tick s m r now).last_level_update = now) ∧
    (tick ⟨0, 0, 100, 5, 1000000, false⟩ 0 0 1172800).level = 5 + 2 ∧
    (tick ⟨100, 100, 0, 1, 1000000, true⟩ 0 0 1086400).level = 1 := by
  refine ⟨?_,
    by norm_num [tick, tickPre, decayStats, neglectFlag, recoveredLLU],
    by norm_num [tick, tickPre, decayStats, neglectFlag, recoveredLLU]⟩
  intro s m r now h
  unfold tick
  dsimp only
  rw [if_pos h]
  have hlev : (tickPre s m r now).level = s.level := rfl
  dsimp only
  rw [hlev]
  exact ⟨rfl, rfl⟩

theorem tick_day_boundary_leveling_applied :
    (tick ⟨0, 0, 100, 5, 1000000, false⟩ 0 0 1172800).level =
      (if (tickPre ⟨0, 0, 100, 5, 1000000, false⟩ 0 0 1172800).is_neglected then
         max 1 ((⟨0, 0, 100, 5, 1000000, false⟩ : PetState).level -
           ⌊((1172800:ℚ) -
             (tickPre ⟨0, 0, 100, 5, 1000000, false⟩ 0 0
               1172800).last_level_update) / 86400⌋)
       else (⟨0, 0, 100, 5, 1000000, false⟩ : PetState).level +
         ⌊((1172800:ℚ) -
           (tickPre ⟨0, 0, 100, 5, 1000000, false⟩ 0 0
             1172800).last_level_update) / 86400⌋) ∧
    (tick ⟨0, 0, 100, 5, 1000000, false⟩ 0 0 1172800).last_level_update =
      1172800 :=
  tick_day_boundary_leveling.1 ⟨0, 0, 100, 5, 1000000, false⟩ 0 0 1172800
    (by norm_num [tickPre, decayStats, neglectFlag, recoveredLLU])

/-- C3: after any `tick`, `is_neglected` holds exactly when all three bars
are at their worst extreme (hunger and thirst at 100, happiness at 0), and
any bar strictly above its worst value forces `is_neglected = false`. -/
theorem tick_neglect_iff_bars_worst (s : PetState) (m r now : ℚ) :
    ((tick s m r now).is_neglected = true ↔
      (100 ≤ (tick s m r now).hunger ∧ 100 ≤ (tick s m r now).thirst ∧
        (tick s m r now).happiness ≤ 0)) ∧
    ((0 < 100 - (tick s m r now).hunger ∨ 0 < 100 - (tick s m r now).thirst ∨
        0 < (tick s m r now).happiness) →
      (tick s m r now).is_neglected = false) := by
  have hiff : (tick s m r now).is_neglected = true ↔
      (100 ≤ (tick s m r now).hunger ∧ 100 ≤ (tick s m r now).thirst ∧
        (tick s m r now).happiness ≤ 0) := by
    rw [tick_is_neglected, tick_hunger, tick_thirst, tick_happiness]
    unfold neglectFlag
    rw [decide_eq_true_eq]
    have e1 : (decayStats s m r).hunger = min 100 (s.hunger + r * m) := rfl
    have e2 : (decayStats s m r).thirst = min 100 (s.thirst + r * m) := rfl
    have e3 : (decayStats s m r).happiness = max 0 (s.happiness - r * m) := rfl
    rw [e1, e2, e3, max_sub_nonpos_iff, max_sub_nonpos_iff]
  refine ⟨hiff, ?_⟩
  intro hpos
  cases h : (tick s m r now).is_neglected
  · rfl
  · have hw := hiff.mp h
    rcases hpos with h1 | h1 | h1 <;> linarith [hw.1, hw.2.1, hw.2.2]

theorem tick_neglect_iff_bars_worst_applied :
    (tick defaultPetState 1 STAT_DECAY_PER_MIN 0).is_neglected = false :=
  (tick_neglect_iff_bars_worst defaultPetState 1 STAT_DECAY_PER_MIN 0).2
    (Or.inl (by norm_num [tick_hunger, defaultPetState, STAT_DECAY_PER_MIN]))

/-- C4, counterexample: from a fully neglected pet, `feed 25` raises the food
bar above 0, yet the next `tick` — covering 1500 elapsed minutes at the
configured decay rate — re-degrades hunger to 100 before the neglect check,
so `is_neglected` stays true and `last_level_update` is *not* reset. -/
theorem tick_recovery_undone_by_decay :
    (feed ⟨100, 100, 0, 1, 1000000, true⟩ 25).hunger < 100 ∧
    (tick (feed ⟨100, 100, 0, 1, 1000000, true⟩ 25) 1500 STAT_DECAY_PER_MIN
        1000010).is_neglected = true ∧
    (tick (feed ⟨100, 100, 0, 1, 1000000, true⟩ 25) 1500 STAT_DECAY_PER_MIN
        1000010).last_level_update = 1000000 := by
  norm_num [feed, tick, tickPre, decayStats, neglectFlag, recoveredLLU,
    STAT_DECAY_PER_MIN]

/-- C4, amended: whenever a `tick` transitions the pet from neglected to
not-neglected, `last_level_update` is reset to that tick's current time; and
after an action raises a bar above 0 from a neglected state, the next `tick`
clears `is_neglected` and resets the timer *provided the decay applied in
that tick does not push the raised bar back to its worst extreme* (stated per
action as the raised stat staying strictly inside its good range after
decay). -/
theorem tick_recovery_resets_timer :
    (∀ (s : PetState) (m r now : ℚ), s.is_neglected = true →
        (tick s m r now).is_neglected = false →
        (tick s m r now).last_level_update = now) ∧
    (∀ (s : PetState) (a m r now : ℚ), s.is_neglected = true →
        (feed s a).hunger + r * m < 100 →
        (tick (feed s a) m r now).is_neglected = false ∧
          (tick (feed s a) m r now).last_level_update = now) ∧
    (∀ (s : PetState) (a m r now : ℚ), s.is_neglected = true →
        (drink s a).thirst + r * m < 100 →
        (tick (drink s a) m r now).is_neglected = false ∧
          (tick (drink s a) m r now).last_level_update = now) ∧
    (∀ (s : PetState) (a m r now : ℚ), s.is_neglected = true →
        0 < (play s a).happiness - r * m →
        (tick (play s a) m r now).is_neglected = false ∧
          (tick (play s a) m r now).last_level_update = now) := by
  refine ⟨?_, ?_, ?_, ?_⟩
  · intro s m r now hneg hrec
    have hflag : neglectFlag (decayStats s m r) = false := by
      rw [← tick_is_neglected s m r now]
      exact hrec
    exact (tick_llu_of_recovery s m r now hneg hflag).2
  · intro s a m r now hneg h
    exact tick_llu_of_recovery (feed s a) m r now hneg
      (neglectFlag_false_of_hunger (feed s a) m r h)
  · intro s a m r now hneg h
    exact tick_llu_of_recovery (drink s a) m r now hneg
      (neglectFlag_false_of_thirst (drink s a) m r h)
  · intro s a m r now hneg h
    exact tick_llu_of_recovery (play s a) m r now hneg
      (neglectFlag_false_of_happiness (play s a) m r h)

theorem tick_recovery_resets_timer_applied :
    (tick (feed ⟨100, 100, 0, 1, 1000000, true⟩ 25) 1 STAT_DECAY_PER_MIN
        1000010).is_neglected = false ∧
    (tick (feed ⟨100, 100, 0, 1, 1000000, true⟩ 25) 1 STAT_DECAY_PER_MIN
        1000010).last_level_update = 1000010 :=
  tick_recovery_resets_timer.2.1 ⟨100, 100, 0, 1, 1000000, true⟩ 25 1
    STAT_DECAY_PER_MIN 1000010 rfl
    (by norm_num [feed, STAT_DECAY_PER_MIN])

/-- C1, counterexample: from a state with all stats in [0, 100], feeding a
negative amount drives hunger to 150, outside [0, 100] — the handler clamps
only at the lower end. -/
theorem feed_negative_amount_escapes_range :
    statsInRange ⟨50, 50, 50, 1, 0, false⟩ ∧
    (feed ⟨50, 50, 50, 1, 0, false⟩ (-100)).hunger = 150 ∧
    ¬ (feed ⟨50, 50, 50, 1, 0, false⟩ (-100)).hunger ≤ 100 := by
  refine ⟨by decide, ?_, ?_⟩ <;>
    · unfold feed
      dsimp only
      norm_num

/-- C1, amended: for every *nonnegative* amount, each action handler (feed,
drink, play) leaves all three raw stats within [0, 100] when they start
there. -/
theorem actions_clamp_nonneg_amounts (s : PetState) (a : ℚ)
    (hs : statsInRange s) (ha : 0 ≤ a) :
    statsInRange (feed s a) ∧ statsInRange (drink s a) ∧
      statsInRange (play s a) := by
  unfold statsInRange at hs ⊢
  obtain ⟨h1, h2, h3, h4, h5, h6⟩ := hs
  unfold feed drink play
  dsimp only
  refine ⟨⟨?_, ?_, h3, h4, h5, h6⟩, ⟨h1, h2, ?_, ?_, h5, h6⟩,
          ⟨h1, h2, h3, h4, ?_, ?_⟩⟩
  · exact le_max_left 0 _
  · exact max_le (by norm_num) (by linarith)
  · exact le_max_left 0 _
  · exact max_le (by norm_num) (by linarith)
  · exact le_min (by norm_num) (by linarith)
  · exact min_le_left 100 _

theorem actions_clamp_nonneg_amounts_applied :
    statsInRange (feed defaultPetState 3) ∧
      statsInRange (drink defaultPetState 3) ∧
      statsInRange (play defaultPetState 3) :=
  actions_clamp_nonneg_amounts defaultPetState 3 (by decide) (by norm_num)

/-- C5: for stats starting in [0, 100] and nonnegative elapsed minutes and
decay rate (the app always passes the configured rate 1/60 ≥ 0), `tick` keeps
hunger, thirst and happiness within [0, 100]; hunger and thirst become the old
value plus `decay_rate * elapsed_minutes` clamped to at most 100, and
happiness the old value minus that delta clamped to at least 0. -/
theorem tick_stats_stay_in_range (s : PetState) (m r now : ℚ)
    (hs : statsInRange s) (hm : 0 ≤ m) (hr : 0 ≤ r) :
    statsInRange (tick s m r now) ∧
    (tick s m r now).hunger = min 100 (s.hunger + r * m) ∧
    (tick s m r now).thirst = min 100 (s.thirst + r * m) ∧
    (tick s m r now).happiness = max 0 (s.happiness - r * m) := by
  unfold statsInRange at hs
  obtain ⟨h1, h2, h3, h4, h5, h6⟩ := hs
  have hrm : 0 ≤ r * m := mul_nonneg hr hm
  refine ⟨?_, tick_hunger s m r now, tick_thirst s m r now,
          tick_happiness s m r now⟩
  unfold statsInRange
  rw [tick_hunger, tick_thirst, tick_happiness]
  exact ⟨le_min (by norm_num) (by linarith), min_le_left _ _,
         le_min (by norm_num) (by linarith), min_le_left _ _,
         le_max_left _ _, max_le (by norm_num) (by linarith)⟩

theorem tick_stats_stay_in_range_applied :
    statsInRange (tick defaultPetState 2 STAT_DECAY_PER_MIN 0) ∧
    (tick defaultPetState 2 STAT_DECAY_PER_MIN 0).hunger =
      min 100 (defaultPetState.hunger + STAT_DECAY_PER_MIN * 2) ∧
    (tick defaultPetState 2 STAT_DECAY_PER_MIN 0).thirst =
      min 100 (defaultPetState.thirst + STAT_DECAY_PER_MIN * 2) ∧
    (tick defaultPetState 2 STAT_DECAY_PER_MIN 0).happiness =
      max 0 (defaultPetState.happiness - STAT_DECAY_PER_MIN * 2) :=
  tick_stats_stay_in_range defaultPetState 2 STAT_DECAY_PER_MIN 0 (by decide)
    (by norm_num) (by norm_num [STAT_DECAY_PER_MIN])

/-- C8: serializing any `PetState` to the persisted snapshot and
deserializing it yields the original state, every field preserved exactly. -/
theorem save_load_roundtrip (s : PetState) :
    loadSnapshot (saveState s) = some s := rfl

/-- C9: a missing save file leaves the default state (silently); an
unparseable file leaves the default state with the error reported; a parsed
file that `PetState(**data)` rejects leaves the default state with the error
reported.  `petLoad` is a total function, so no outcome propagates an
exception to the caller. -/
theorem load_failure_falls_back_to_default :
    petLoad defaultPetState .missing = (defaultPetState, false) ∧
    petLoad defaultPetState .unparseable = (defaultPetState, true) ∧
    (∀ data, loadSnapshot data = none →
        petLoad defaultPetState (.parsed data) = (defaultPetState, true)) := by
  refine ⟨rfl, rfl, ?_⟩
  intro data h
  unfold petLoad
  dsimp only
  rw [h]

theorem load_failure_falls_back_to_default_applied :
    petLoad defaultPetState (.parsed [("bogus", .int 0)]) =
      (defaultPetState, true) :=
  load_failure_falls_back_to_default.2.2 [("bogus", .int 0)] (by decide)

/-- C10: after construction, `last_level_update` is never 0 (assuming a
positive wall clock): whenever the loaded (or default) state carries
`last_level_update = 0`, the constructor replaces it with the current time. -/
theorem init_last_level_update_nonzero (fr : FileRead) (now : ℚ)
    (h : 0 < now) :
    (petInit fr now).last_level_update ≠ 0 ∧
    ((petLoad defaultPetState fr).1.last_level_update = 0 →
      (petInit fr now).last_level_update = now) := by
  unfold petInit
  dsimp only
  split
  · exact ⟨by simpa using h.ne', fun _ => rfl⟩
  · rename_i hz
    exact ⟨hz, fun hc => absurd hc hz⟩

theorem init_last_level_update_nonzero_applied :
    (petInit .missing 5).last_level_update ≠ 0 ∧
    ((petLoad defaultPetState .missing).1.last_level_update = 0 →
      (petInit .missing 5).last_level_update = 5) :=
  init_last_level_update_nonzero .missing 5 (by norm_num)

lemma pickMin_eq (f w h : ℚ) :
    (if min f (min w h) = f then Mood.hungry
     else if min f (min w h) = w then Mood.thirsty else Mood.sad) =
    (if f ≤ w ∧ f ≤ h then Mood.hungry
     else if w ≤ h then Mood.thirsty else Mood.sad) := by
  rcases le_or_lt f (min w h) with hf | hf
  · rw [if_pos (min_eq_left hf), if_pos (le_min_iff.mp hf)]
  · have hmin : min f (min w h) = min w h := min_eq_right hf.le
    have hne : min f (min w h) ≠ f := by
      rw [hmin]
      exact ne_of_lt hf
    rw [if_neg hne, hmin,
      if_neg (fun hc => absurd (le_min_iff.mpr hc) (not_le_of_lt hf))]
    rcases le_or_lt w h with hw | hw
    · rw [if_pos (min_eq_left hw), if_pos hw]
    · have hmin2 : min w h = h := min_eq_right hw.le
      have hne2 : min w h ≠ w := by
        rw [hmin2]
        exact ne_of_lt hw
      rw [if_neg hne2, if_neg (not_le_of_lt hw)]

/-- C6: `mood` agrees everywhere with the resolver the spec describes — happy
when all bars exceed 70, else the first critical bar below 30 in the order
food, water, heart, else the mood of the minimum bar with tie-break order
food over water over heart.  In particular bars {71, 71, 71} give `happy` and
bars {70, 71, 71} give `hungry`. -/
theorem mood_matches_spec_resolver :
    (∀ s : PetState, mood s = moodSpec s) ∧
    mood ⟨29, 29, 71, 1, 0, false⟩ = Mood.happy ∧
    mood ⟨30, 29, 71, 1, 0, false⟩ = Mood.hungry := by
  refine ⟨?_, by norm_num [mood], by norm_num [mood]⟩
  intro s
  unfold mood moodSpec
  dsimp only
  rw [pickMin_eq]

/-- C7, counterexample: a pointer-down inside the "feed" hit region followed
directly by a pointer-up at a point inside the pet's hit region invokes no
action and no feedback-trigger, because the pointer-up branch tests the
*stored* drag position (here the down point), never the up event's own
position — hunger stays 50 instead of dropping by the feed amount. -/
theorem drag_drop_ignores_up_position :
    Rect.collidepoint ⟨0, 0, 10, 10⟩ (5, 5) = true ∧
    Rect.collidepoint ⟨100, 100, 20, 20⟩ (105, 105) = true ∧
    handleEvents
        [("feed", ⟨0, 0, 10, 10⟩), ("drink", ⟨20, 0, 10, 10⟩),
         ("play", ⟨40, 0, 10, 10⟩)]
        (some ⟨100, 100, 20, 20⟩) FEED_AMOUNT PLAY_AMOUNT
        ⟨⟨50, 50, 50, 1, 0, false⟩, none, none, 0⟩
        [.mouseButtonDown (5, 5), .mouseButtonUp (105, 105)] =
      ⟨⟨50, 50, 50, 1, 0, false⟩, none, none, 0⟩ ∧
    (feed (⟨50, 50, 50, 1, 0, false⟩ : PetState) FEED_AMOUNT).hunger ≠ 50 := by
  refine ⟨rfl, rfl, rfl, ?_⟩
  norm_num [feed, FEED_AMOUNT]

/-- C7, amended: the drop test uses the last *tracked* pointer position (set
by the pointer-down and updated by pointer-moves), not the pointer-up event's
own coordinates.  A down inside the "feed" region, a move to a point inside
the pet's hit region, then an up anywhere feeds the pet by exactly the
configured feed amount (clamped at 0) and fires exactly one feedback-trigger;
an up whose tracked position lies outside the pet's hit region returns to
Idle with the pet and the feedback count untouched. -/
theorem drag_drop_uses_tracked_position :
    (∀ (ers : List (String × Rect)) (fr r : Rect) (a : AppCore)
        (p1 p2 p3 : ℤ × ℤ),
        ers.find? (fun ar => ar.2.collidepoint p1) = some ("feed", fr) →
        r.collidepoint p2 = true →
        handleEvents ers (some r) FEED_AMOUNT PLAY_AMOUNT a
            [.mouseButtonDown p1, .mouseMotion p2, .mouseButtonUp p3] =
          { pet := feed a.pet FEED_AMOUNT, dragged_emoji := none,
            drag_pos := none, feedback_count := a.feedback_count + 1 }) ∧
    (∀ (ers : List (String × Rect)) (pet_rect : Option Rect) (a : AppCore)
        (p : ℤ × ℤ),
        (∀ dp, a.drag_pos = some dp → optCollide pet_rect dp = false) →
        handleEvent ers pet_rect FEED_AMOUNT PLAY_AMOUNT a
            (.mouseButtonUp p) =
          { a with dragged_emoji := none, drag_pos := none }) := by
  constructor
  · intro ers fr r a p1 p2 p3 hfind hcol
    have htruthy : rectTruthy (some r) = true := by
      unfold Rect.collidepoint at hcol
      rw [decide_eq_true_eq] at hcol
      obtain ⟨c1, c2, c3, c4⟩ := hcol
      unfold rectTruthy
      rw [Bool.and_eq_true, Bool.not_eq_true', Bool.not_eq_true',
        beq_eq_false_iff_ne, beq_eq_false_iff_ne]
      constructor <;> · intro hz; omega
    have h1 : handleEvent ers (some r) FEED_AMOUNT PLAY_AMOUNT a
        (.mouseButtonDown p1) =
        { a with dragged_emoji := some "feed", drag_pos := some p1 } := by
      unfold handleEvent
      dsimp only
      rw [hfind]
    have h2 : handleEvent ers (some r) FEED_AMOUNT PLAY_AMOUNT
        { a with dragged_emoji := some "feed", drag_pos := some p1 }
        (.mouseMotion p2) =
        { a with dragged_emoji := some "feed", drag_pos := some p2 } := rfl
    have hcond : (rectTruthy (some r) && optCollide (some r) p2) = true := by
      rw [htruthy, Bool.true_and]
      exact hcol
    have h3 : handleEvent ers (some r) FEED_AMOUNT PLAY_AMOUNT
        { a with dragged_emoji := some "feed", drag_pos := some p2 }
        (.mouseButtonUp p3) =
        { pet := feed a.pet FEED_AMOUNT, dragged_emoji := none,
          drag_pos := none, feedback_count := a.feedback_count + 1 } := by
      unfold handleEvent
      dsimp only
      rw [if_pos hcond]
      unfold performDrop
      rw [if_pos rfl]
      unfold spawnHearts
      rw [if_pos htruthy]
    unfold handleEvents
    simp only [List.foldl]
    rw [h1, h2, h3]
  · intro ers pet_rect a p hdp
    obtain ⟨pet, de, dp, fc⟩ := a
    unfold handleEvent
    dsimp only
    cases de <;> cases dp
    · rfl
    · rfl
    · rfl
    · rename_i dpv
      dsimp only
      rw [hdp dpv rfl, Bool.and_false]
      rfl

theorem drag_drop_uses_tracked_position_applied :
    (handleEvents
        [("feed", ⟨0, 0, 10, 10⟩), ("drink", ⟨20, 0, 10, 10⟩),
         ("play", ⟨40, 0, 10, 10⟩)]
        (some ⟨100, 100, 20, 20⟩) FEED_AMOUNT PLAY_AMOUNT
        ⟨⟨50, 50, 50, 1, 0, false⟩, none, none, 0⟩
        [.mouseButtonDown (5, 5), .mouseMotion (105, 105),
         .mouseButtonUp (200, 200)] =
      { pet := feed (⟨50, 50, 50, 1, 0, false⟩ : PetState) FEED_AMOUNT,
        dragged_emoji := none, drag_pos := none, feedback_count := 0 + 1 }) ∧
    (handleEvent
        [("feed", ⟨0, 0, 10, 10⟩)] (some ⟨100, 100, 20, 20⟩)
        FEED_AMOUNT PLAY_AMOUNT
        ⟨⟨50, 50, 50, 1, 0, false⟩, some "play", some (5, 5), 0⟩
        (.mouseButtonUp (105, 105)) =
      { pet := ⟨50, 50, 50, 1, 0, false⟩, dragged_emoji := none,
        drag_pos := none, feedback_count := 0 }) :=
  ⟨drag_drop_uses_tracked_position.1
      [("feed", ⟨0, 0, 10, 10⟩), ("drink", ⟨20, 0, 10, 10⟩),
       ("play", ⟨40, 0, 10, 10⟩)]
      ⟨0, 0, 10, 10⟩ ⟨100, 100, 20, 20⟩
      ⟨⟨50, 50, 50, 1, 0, false⟩, none, none, 0⟩
      (5, 5) (105, 105) (200, 200) rfl rfl,
   drag_drop_uses_tracked_position.2
      [("feed", ⟨0, 0, 10, 10⟩)] (some ⟨100, 100, 20, 20⟩)
      ⟨⟨50, 50, 50, 1, 0, false⟩, some "play", some (5, 5), 0⟩
      (105, 105)
      (fun dp h => by
        injection h with h2
        rw [← h2]
        rfl)⟩

end Taymagotchi
